import Mathlib

/-!
Verification of the clearbooks library (`clearbooks.py`): a shallow embedding
of its date handling, session login, CSV-export fetching and timesheet
retrieval, together with proofs about the properties stated in the
specification.

Calendar dates are embedded as proleptic Gregorian ordinals (the encoding
underlying Python's `datetime.date.toordinal`), so that
`date + timedelta(days = n)` becomes `ordinal + n` and date comparison
becomes `Nat` comparison.
-/

set_option autoImplicit false

namespace Clearbooks

/-! ### Dates as proleptic Gregorian ordinals -/

/-- Gregorian leap-year test, as in `datetime`. -/
def isLeapYear (y : Nat) : Bool :=
  (y % 4 == 0 && y % 100 != 0) || y % 400 == 0

/-- Number of days in month `m` (1-based) of year `y`. -/
def daysInMonth (y m : Nat) : Nat :=
  if m = 2 then (if isLeapYear y then 29 else 28)
  else if m = 4 || m = 6 || m = 9 || m = 11 then 30
  else 31

/-- Number of days in year `y` strictly before month `m` (1-based). -/
def daysBeforeMonth (y m : Nat) : Nat :=
  (List.range (m - 1)).foldl (fun acc i => acc + daysInMonth y (i + 1)) 0

/-- Proleptic Gregorian ordinal of the date `y-m-d`; day 1 is 0001-01-01,
matching Python's `date.toordinal`. -/
def toOrdinal (y m d : Nat) : Nat :=
  365 * (y - 1) + (y - 1) / 4 - (y - 1) / 100 + (y - 1) / 400 + daysBeforeMonth y m + d

/-- `ONE_YEAR = timedelta(days=365)`, the default chunk step of
`get_timesheets`. -/
def ONE_YEAR : Nat := 365

/-! ### The timesheet chunking loop

`get_timesheets` iterates

    while from_ <= to:
        target_end_date = from_ + step
        end_date = to if to <= target_end_date else target_end_date
        ... fetch chunk (from_, end_date) ...
        from_ = from_ + step + timedelta(days=1)

`chunksAux` is that loop with an explicit fuel argument for structural
recursion; `t + 1 - f` units of fuel always suffice because the cursor
advances by `s + 1 ≥ 1` days per iteration. -/

def chunksAux : Nat → Nat → Nat → Nat → List (Nat × Nat)
  | 0, _, _, _ => []
  | fuel + 1, f, t, s =>
    if f ≤ t then (f, min t (f + s)) :: chunksAux fuel (f + s + 1) t s
    else []

/-- The list of `(from, end_date)` sub-ranges requested by the download loop
of `get_timesheets`, for cursor start `f`, final date `t` and step `s`
(all in days). -/
def chunks (f t s : Nat) : List (Nat × Nat) := chunksAux (t + 1 - f) f t s

/-- The inclusive range of days `[a, b]` as a list. -/
def rangeList (a b : Nat) : List Nat := List.range' a (b + 1 - a)

/-- All days covered by a list of inclusive chunks, in order and with
multiplicity. -/
def daysOf (cs : List (Nat × Nat)) : List Nat :=
  cs.flatMap (fun c => rangeList c.1 c.2)

/-! #### Chunking lemmas -/

theorem chunksAux_of_gt (fuel f t s : Nat) (h : t < f) :
    chunksAux fuel f t s = [] := by
  cases fuel with
  | zero => rfl
  | succ n => simp only [chunksAux, if_neg (by omega : ¬ f ≤ t)]

theorem chunksAux_cover (s : Nat) :
    ∀ fuel f t : Nat, t + 1 - f ≤ fuel → f ≤ t →
      daysOf (chunksAux fuel f t s) = rangeList f t := by
  intro fuel
  induction fuel with
  | zero => intro f t hfuel hft; omega
  | succ n ih =>
    intro f t hfuel hft
    simp only [chunksAux, if_pos hft, daysOf, List.flatMap_cons]
    by_cases hend : t ≤ f + s
    · have hmin : min t (f + s) = t := Nat.min_eq_left hend
      rw [hmin, chunksAux_of_gt _ _ _ _ (by omega)]
      simp [daysOf]
    · have hmin : min t (f + s) = f + s := Nat.min_eq_right (by omega)
      have ih' := ih (f + s + 1) t (by omega) (by omega)
      simp only [daysOf] at ih'
      rw [hmin, ih']
      show rangeList f (f + s) ++ rangeList (f + s + 1) t = rangeList f t
      unfold rangeList
      have h1 : f + s + 1 - f = s + 1 := by omega
      have h2 : f + (s + 1) = f + s + 1 := by omega
      rw [h1, ← h2, List.range'_append_1]
      congr 1
      omega

theorem chunksAux_bounds (s t : Nat) :
    ∀ fuel f : Nat, ∀ c ∈ chunksAux fuel f t s,
      f ≤ c.1 ∧ c.1 ≤ c.2 ∧ c.2 ≤ t ∧ c.2 - c.1 ≤ s := by
  intro fuel
  induction fuel with
  | zero => intro f c hc; simp [chunksAux] at hc
  | succ n ih =>
    intro f c hc
    by_cases hft : f ≤ t
    · simp only [chunksAux, if_pos hft, List.mem_cons] at hc
      rcases hc with hc | hc
      · subst hc
        refine ⟨Nat.le_refl _, ?_, ?_, ?_⟩ <;> simp <;> omega
      · have := ih (f + s + 1) c hc
        omega
    · rw [chunksAux_of_gt _ _ _ _ (by omega)] at hc
      simp at hc

/-! ### Python exceptions raised by the library -/

/-- The Python exceptions that `clearbooks.py` can raise or propagate. -/
inductive PyError where
  | keyError (name : String)
  | connectionError
  | httpError (status : Nat)
  | valueError (msg : String)
  | attributeError (msg : String)
  deriving DecidableEq, Repr

/-! ### `Session.__enter__`

The login flow of `Session.__enter__` (clearbooks.py lines 62-96):
credentials are read from the environment (a missing variable re-raises the
`KeyError`); then, inside a `try` block, `requests.Session()` is created,
the login form is POSTed, `raise_for_status` is called, and a final URL
equal to the login URL raises `ValueError('Incorrect username or
password.')`.  The `except Exception` handler executes
`self.__exit__(*sys.exec_info())`: `sys` has no attribute `exec_info`
(the real name is `exc_info`), so evaluating the argument raises
`AttributeError` before `__exit__` can run.  That `AttributeError`
propagates, the original exception is discarded, and the underlying
`requests.Session` is never exited. -/

def LOGIN_URL : String := "https://secure.clearbooks.co.uk/account/action/login/"

/-- Environment variables available to `Session.__enter__`. -/
structure LoginEnv where
  cbUser : Option String
  cbPassword : Option String

/-- Behaviour of the login POST: whether the transport layer raised, and
otherwise the HTTP status and final (post-redirect) URL of the response. -/
structure LoginResponse where
  transportError : Bool
  status : Nat
  url : String

/-- Outcome of `Session.__enter__`: the value returned or exception
propagated, whether `requests.Session()` was constructed, and whether its
`__exit__` ran before control left `__enter__`. -/
structure EnterOutcome where
  result : Except PyError Unit
  connectionCreated : Bool
  connectionReleased : Bool
  deriving Repr

/-- The `AttributeError` produced by evaluating `sys.exec_info` in the
`except` handler of `Session.__enter__`. -/
def EXC_INFO_TYPO : PyError :=
  .attributeError "module sys has no attribute exec_info"

/-- Body of the `try` block of `Session.__enter__` after
`requests.Session()` has been created: the login POST, `raise_for_status`,
and the login-page check. -/
def tryLogin (resp : LoginResponse) : Except PyError Unit :=
  if resp.transportError then .error .connectionError
  else if 400 ≤ resp.status then .error (.httpError resp.status)
  else if resp.url = LOGIN_URL then
    .error (.valueError "Incorrect username or password.")
  else .ok ()

/-- `Session.__enter__` as a function of the environment and the login
response.  A failing `try` body reaches the `except Exception` handler,
where `sys.exec_info` raises `AttributeError`; `self.__exit__` is never
invoked, so the connection is not released. -/
def sessionEnter (env : LoginEnv) (resp : LoginResponse) : EnterOutcome :=
  match env.cbUser, env.cbPassword with
  | none, _ => ⟨.error (.keyError "CB_USER"), false, false⟩
  | some _, none => ⟨.error (.keyError "CB_PASSWORD"), false, false⟩
  | some _, some _ =>
    match tryLogin resp with
    | .ok _ => ⟨.ok (), true, false⟩
    | .error _ => ⟨.error EXC_INFO_TYPO, true, false⟩

/-! ### Column schemas and the date-range validator -/

def BILL_COL_NAMES : List String :=
  ["clearbooks_id", "prefix", "number", "accounting_date", "reference",
   "po_reference", "transaction_id", "invoice_date", "invoice_due",
   "description", "company_name", "net", "vat", "gross", "status",
   "project_name", "outstanding", "mc_net", "mc_vat", "mc_gross",
   "currency_id", "formatted_invoice_number", "amount_credited",
   "currency_code"]

def TRANS_COL_NAMES : List String :=
  ["id", "description", "entity_id", "accounting_date", "vat_return_id",
   "ptype", "account", "amount", "payment_id",
   "bank_date", "purchase_id", "sales_id", "entity_name", "account_name",
   "account_code", "vat_return_name", "mc_amount", "fxrate",
   "transaction_project", "project", "invoice_line_description"]

def INVOICE_COL_NAMES : List String :=
  ["invoice_num", "prefix", "accounting_date", "reference",
   "transaction_id", "invoice_date", "invoice_due", "description",
   "company_name", "net", "vat", "gross", "status", "project_name",
   "outstanding", "mc_net", "mc_vat", "mc_gross", "currency_id",
   "formatted_invoice_number", "amount_credited", "currency_code"]

def PO_COL_NAMES : List String :=
  ["clearbooks_id", "prefix", "accounting_date", "reference", "invoice_date",
   "description", "company_name", "net", "vat", "gross", "status",
   "project_name"]

/-- The `col_mapping` dict of `_get_export`: export type to column schema. -/
def col_mapping (k : String) : Option (List String) :=
  if k = "POS" then some PO_COL_NAMES
  else if k = "SALES" then some INVOICE_COL_NAMES
  else if k = "PURCHASES" then some BILL_COL_NAMES
  else if k = "TRANSACTIONS" then some TRANS_COL_NAMES
  else none

/-- Rendering of `list(col_mapping.keys())` in the unknown-export-type
message. -/
def EXPORT_TYPES_STR : String := "['POS', 'SALES', 'PURCHASES', 'TRANSACTIONS']"

/-- The `ValueError` message of `_get_export` for an unrecognised export
type, listing the valid kinds. -/
def exportTypeMsg (k : String) : String :=
  "Export type " ++ k ++ " must be one of " ++ EXPORT_TYPES_STR

/-- The `ValueError` message of `_check_date_order`, which names both
dates (dates are rendered here as their ordinals). -/
def rangeMsg (from_ to_ : Nat) : String :=
  "\"to\" (" ++ Nat.repr to_ ++ ") cannot be before \"from\" (" ++
    Nat.repr from_ ++ ")"

/-- `_check_date_order(from_, to)`: raises `ValueError` naming both dates
when `from_ > to`, otherwise returns `True`.  It is a pure check: it
touches no session and no network. -/
def check_date_order (from_ to_ : Nat) : Except PyError Bool :=
  if from_ > to_ then .error (.valueError (rangeMsg from_ to_))
  else .ok true

/-! ### Data frames -/

/-- A pandas `DataFrame`, reduced to its ordered column names and its rows
of (string-rendered) cell values. -/
structure Frame where
  cols : List String
  rows : List (List String)
  deriving DecidableEq, Repr

/-- `pd.DataFrame()`: the frame with no columns and no rows, returned by
`_get_timesheet` for an empty response body. -/
def emptyFrame : Frame := ⟨[], []⟩

/-! ### `_get_export`

`_get_export(export_type, from_, to, parse_dates)` (clearbooks.py lines
268-312): looks up the column schema, raising `ValueError` listing the
valid export types for an unknown one; validates the date order; only then
opens a `Session`, POSTs the report request, closes the session, calls
`raise_for_status`, and parses a non-empty body as CSV — an empty body
yields `pd.DataFrame(columns=col_mapping[export_type])`.

CSV parsing by `pandas.read_csv` is external to the repository, so it is a
parameter `parseCsv`; the `parse_dates` argument only affects cell types
inside that external parser and is not modelled.  The caller-facing `to`
default (`date.today()`) is resolved before the call, so `to_` is taken
already resolved. -/

/-- An HTTP response as seen by the library: whether the transport layer
raised, else the status code and body text. -/
structure HttpResponse where
  transportError : Bool
  status : Nat
  body : String

/-- Result of `_get_export`, together with whether a `Session` was ever
opened (equivalently, whether any network activity was attempted). -/
structure ExportOutcome where
  result : Except PyError Frame
  sessionOpened : Bool
  deriving Repr

/-- `_get_export` as a function of the export type, the (resolved) date
range and the response the server would give to the report POST. -/
def get_export (parseCsv : String → Frame) (export_type : String)
    (from_ to_ : Nat) (resp : HttpResponse) : ExportOutcome :=
  match col_mapping export_type with
  | none => ⟨.error (.valueError (exportTypeMsg export_type)), false⟩
  | some cols =>
    match check_date_order from_ to_ with
    | .error e => ⟨.error e, false⟩
    | .ok _ =>
      if resp.transportError then ⟨.error .connectionError, true⟩
      else if 400 ≤ resp.status then ⟨.error (.httpError resp.status), true⟩
      else if resp.body = "" then ⟨.ok ⟨cols, []⟩, true⟩
      else ⟨.ok (parseCsv resp.body), true⟩

/-! ### `_get_timesheet` and `get_timesheets` -/

/-- One chunk download, `_get_timesheet` (clearbooks.py lines 191-227):
`raise_for_status` on the GET response, then a non-empty body is parsed as
CSV while an empty body yields `pd.DataFrame()` (no columns, no rows). -/
def get_timesheet (parseCsv : String → Frame) (resp : HttpResponse) :
    Except PyError Frame :=
  if resp.transportError then .error .connectionError
  else if 400 ≤ resp.status then .error (.httpError resp.status)
  else if resp.body = "" then .ok emptyFrame
  else .ok (parseCsv resp.body)

/-- Column union in order of first appearance, as `pd.concat` aligns the
columns of the concatenated frames. -/
def unionCols (acc cs : List String) : List String :=
  acc ++ cs.filter (fun c => ¬ acc.contains c)

/-- `pd.concat(dataframes)`: raises `ValueError` on an empty list;
otherwise the columns are the ordered union of the frames' columns and the
rows are appended in order.  (Padding of rows that miss columns is not
modelled; no claim depends on cell alignment.) -/
def concatFrames (fs : List Frame) : Except PyError Frame :=
  match fs with
  | [] => .error (.valueError "No objects to concatenate")
  | _ =>
    .ok ⟨fs.foldl (fun acc fr => unionCols acc fr.cols) [],
         fs.flatMap (fun fr => fr.rows)⟩

/-- The regex substitution `re.sub('^_', '.', s)` performed cell-wise by
`times.replace('^_', '.', regex=True)`: a leading underscore becomes a
dot, any other value is unchanged. -/
def underscoreToDot (s : String) : String :=
  match s.data with
  | [] => s
  | c :: rest => if c = '_' then String.mk ('.' :: rest) else s

/-- Application of a cell-wise substitution to a whole frame, as
`DataFrame.replace` does: every cell of every row is rewritten, the
column names are untouched. -/
def mapFrame (g : String → String) (fr : Frame) : Frame :=
  ⟨fr.cols, fr.rows.map (List.map g)⟩

/-- `get_timesheets` (clearbooks.py lines 129-188): validate the date
order, fetch one frame per chunk of `chunks from_ to_ step` under a single
session, `pd.concat` the frames, rewrite leading underscores, then access
`times['Days']` for the days-booked warning filter — a `KeyError` when the
concatenated frame has no `Days` column.  The remaining steps (the
warning, the `Hours_Booked` column from `_get_hours`, the `Quarter` column
from `pd.PeriodIndex(..., freq='Q-MAR')`) operate row-wise on a well-formed
frame and are abstracted as `post`; their row-level formulas are modelled
separately by `get_hours_row` and `fiscalQuarter`. -/
def get_timesheets (parseCsv : String → Frame) (post : Frame → Frame)
    (fetch : Nat → Nat → HttpResponse) (from_ to_ step : Nat) :
    Except PyError Frame :=
  match check_date_order from_ to_ with
  | .error e => .error e
  | .ok _ =>
    match (chunks from_ to_ step).mapM
        (fun c => get_timesheet parseCsv (fetch c.1 c.2)) with
    | .error e => .error e
    | .ok frames =>
      match concatFrames frames with
      | .error e => .error e
      | .ok times0 =>
        let times := mapFrame underscoreToDot times0
        if times.cols.contains "Days" then .ok (post times)
        else .error (.keyError "Days")

/-! ### Row-level computed columns -/

/-- One timesheet row's numeric components, as the `Days`, `Hours` and
`Minutes` columns (int64 in the downloaded CSV). -/
structure TimesheetRow where
  days : Int
  hours : Int
  minutes : Int

/-- `_get_hours` applied to one row: `Days * 24 + Hours + Minutes / 60`,
in exact arithmetic (pandas performs the division in floating point; every
value of the form `k / 60` here is representable without the difference
mattering to the stated claims). -/
def get_hours_row (r : TimesheetRow) : ℚ :=
  (r.days : ℚ) * 24 + (r.hours : ℚ) + (r.minutes : ℚ) / 60

/-- The specification's formula for `Hours_Booked`, stated in its own
words for comparison with `get_hours_row`. -/
def hoursBookedSpec (days hours minutes : Int) : ℚ :=
  (days : ℚ) * 24 + (hours : ℚ) + (minutes : ℚ) / 60

/-- Modelled from the spec: the fiscal-quarter labelling of
`pd.PeriodIndex(times['Datetime'], freq='Q-MAR')`, whose semantics live in
the pandas library, not in this repository.  Quarters of the fiscal year
run Apr-Jun (Q1), Jul-Sep (Q2), Oct-Dec (Q3), Jan-Mar (Q4), and the year
label is the calendar year in which the fiscal year ends (Q-MAR: the year
ending in March).  Input is the calendar year and month (1-12) of the
entry's timestamp; output is `(fiscal year label, quarter number)`. -/
def fiscalQuarter (year month : Nat) : Nat × Nat :=
  if 4 ≤ month then (year + 1, (month - 4) / 3 + 1)
  else (year, (month + 8) / 3 + 1)

/-! ### Helper lemmas for the pipeline theorems -/

theorem chunks_cons_of_le (f t s : Nat) (h : f ≤ t) :
    chunks f t s = (f, min t (f + s)) :: chunksAux (t - f) (f + s + 1) t s := by
  unfold chunks
  have hfuel : t + 1 - f = (t - f) + 1 := by omega
  rw [hfuel]
  simp only [chunksAux, if_pos h]

theorem mapM_const_ok {α β γ : Type} (g : α → Except γ β) (b : β) :
    ∀ l : List α, (∀ c ∈ l, g c = .ok b) →
      l.mapM g = .ok (l.map (fun _ => b)) := by
  intro l
  induction l with
  | nil => intro _; rfl
  | cons x xs ih =>
    intro h
    rw [List.mapM_cons, h x (List.mem_cons_self x xs),
      ih (fun c hc => h c (List.mem_cons_of_mem x hc))]
    rfl

theorem foldl_unionCols_empty (acc : List String) :
    ∀ l : List Frame, (∀ fr ∈ l, fr = emptyFrame) →
      l.foldl (fun a fr => unionCols a fr.cols) acc = acc := by
  intro l
  induction l generalizing acc with
  | nil => intro _; rfl
  | cons x xs ih =>
    intro h
    have hx : x = emptyFrame := h x (List.mem_cons_self x xs)
    subst hx
    rw [List.foldl_cons, ih _ (fun fr hfr => h fr (List.mem_cons_of_mem _ hfr))]
    simp [unionCols, emptyFrame]

theorem concatFrames_of_empties :
    ∀ l : List Frame, l ≠ [] → (∀ fr ∈ l, fr = emptyFrame) →
      concatFrames l = .ok emptyFrame := by
  intro l hne h
  match l, hne with
  | x :: xs, _ =>
    unfold concatFrames
    rw [foldl_unionCols_empty [] _ h]
    have hrows : (x :: xs).flatMap (fun fr => fr.rows) = [] := by
      rw [List.flatMap_eq_nil_iff]
      intro fr hfr
      rw [h fr hfr]
      rfl
    rw [hrows]
    rfl

/-! ### Claim theorems -/

/-- C1 counterexample.  On `from = 2021-01-01`, `to = 2022-06-01`,
`chunkSize = 365` days, the download loop of `get_timesheets` does not
produce the chunks `[2021-01-01, 2021-12-31]` and `[2022-01-01,
2022-06-01]` stated by the claim: a chunk's end is `cursor + 365 days`
inclusive, so the first chunk already covers 2022-01-01 and the second
starts on 2022-01-02. -/
theorem chunks_example_ne_claimed :
    chunks (toOrdinal 2021 1 1) (toOrdinal 2022 6 1) 365 ≠
      [(toOrdinal 2021 1 1, toOrdinal 2021 12 31),
       (toOrdinal 2022 1 1, toOrdinal 2022 6 1)] := by decide

/-- C1 (amended).  For every `from ≤ to` and every chunk step, the
download loop of `get_timesheets` partitions `[from, to]` into contiguous,
non-overlapping sub-ranges covering every day exactly once (their days,
concatenated in order, are exactly the days of `[from, to]`), each
sub-range spanning at most `chunkSize` beyond its start
(`end - start ≤ chunkSize`, i.e. up to `chunkSize + 1` calendar days);
the loop is a total function, terminating once the cursor passes `to`.
On `from = 2021-01-01`, `to = 2022-06-01`, `chunkSize = 365` days it
yields exactly the two chunks `[2021-01-01, 2022-01-01]` and
`[2022-01-02, 2022-06-01]`. -/
theorem chunks_partition :
    (∀ f t s : Nat, f ≤ t →
      daysOf (chunks f t s) = rangeList f t ∧
      ∀ c ∈ chunks f t s, c.1 ≤ c.2 ∧ c.2 - c.1 ≤ s) ∧
    chunks (toOrdinal 2021 1 1) (toOrdinal 2022 6 1) 365 =
      [(toOrdinal 2021 1 1, toOrdinal 2022 1 1),
       (toOrdinal 2022 1 2, toOrdinal 2022 6 1)] := by
  constructor
  · intro f t s hft
    refine ⟨chunksAux_cover s _ f t (Nat.le_refl _) hft, fun c hc => ?_⟩
    have h := chunksAux_bounds s t _ f c hc
    exact ⟨h.2.1, h.2.2.2⟩
  · decide

/-- C1 witness: the partition theorem applied at the concrete range
`[10, 20]` with step 3. -/
theorem chunks_partition_witness :
    daysOf (chunks 10 20 3) = rangeList 10 20 :=
  (chunks_partition.1 10 20 3 (by decide)).1

/-- C2 (code bug).  When the login POST succeeds at the HTTP level but the
final URL is the login page, the `try` body of `Session.__enter__` does
raise `ValueError('Incorrect username or password.')` — but the `except`
handler then evaluates `sys.exec_info`, which does not exist, so what
propagates to the caller is an `AttributeError`, not the authentication
error, and the connection is left open. -/
theorem sessionEnter_login_page_result :
    tryLogin ⟨false, 200, LOGIN_URL⟩ =
      .error (.valueError "Incorrect username or password.") ∧
    sessionEnter ⟨some "user", some "secret"⟩ ⟨false, 200, LOGIN_URL⟩ =
      ⟨.error EXC_INFO_TYPO, true, false⟩ :=
  ⟨rfl, rfl⟩

/-- C3 (code bug).  On every failure of the `try` body of
`Session.__enter__` after `requests.Session()` has been created — transport
error, HTTP error status, or rejected credentials — the handler's
`sys.exec_info` typo raises `AttributeError` before `self.__exit__` can
run, so the partially-opened connection is never released
(`connectionReleased = false`), contradicting the claim. -/
theorem sessionEnter_never_releases_on_failure :
    ∀ (u p : String) (resp : LoginResponse) (e : PyError),
      tryLogin resp = .error e →
      sessionEnter ⟨some u, some p⟩ resp =
        ⟨.error EXC_INFO_TYPO, true, false⟩ := by
  intro u p resp e h
  simp [sessionEnter, h]

/-- C3 witness: the rejected-credentials failure path evaluated
concretely. -/
theorem sessionEnter_never_releases_on_failure_witness :
    sessionEnter ⟨some "user", some "secret"⟩ ⟨false, 200, LOGIN_URL⟩ =
      ⟨.error EXC_INFO_TYPO, true, false⟩ :=
  sessionEnter_never_releases_on_failure "user" "secret" _
    (.valueError "Incorrect username or password.") rfl

/-- C4.  For every export kind in the schema mapping and every valid date
range, an empty response body makes `_get_export` return a frame with zero
rows whose columns are exactly the column list fixed for that kind, in the
fixed order (a session was opened, as the request was issued). -/
theorem get_export_empty_body_schema :
    ∀ (parseCsv : String → Frame) (f t : Nat) (k : String)
      (cols : List String),
      f ≤ t → col_mapping k = some cols →
      get_export parseCsv k f t ⟨false, 200, ""⟩ = ⟨.ok ⟨cols, []⟩, true⟩ := by
  intro parseCsv f t k cols hft hcol
  unfold get_export
  rw [hcol]
  unfold check_date_order
  rw [if_neg (by omega)]
  rfl

/-- C4 witness: the purchase-orders export with an empty body on the range
`[5, 9]` carries exactly `PO_COL_NAMES` and no rows. -/
theorem get_export_empty_body_schema_witness :
    get_export (fun _ => emptyFrame) "POS" 5 9 ⟨false, 200, ""⟩ =
      ⟨.ok ⟨PO_COL_NAMES, []⟩, true⟩ :=
  get_export_empty_body_schema (fun _ => emptyFrame) 5 9 "POS" PO_COL_NAMES
    (by decide) rfl

/-- C5.  `_check_date_order(from_, to)` returns `True` exactly when
`from_ ≤ to` (in particular on `from_ = to`), and raises a `ValueError`
naming both dates exactly when `from_ > to`; being a plain function of its
two arguments, it has no side effects. -/
theorem check_date_order_spec :
    ∀ f t : Nat,
      (f ≤ t → check_date_order f t = .ok true) ∧
      (t < f → check_date_order f t = .error (.valueError (rangeMsg f t))) ∧
      check_date_order t t = .ok true := by
  intro f t
  refine ⟨fun h => ?_, fun h => ?_, ?_⟩ <;>
    unfold check_date_order
  · rw [if_neg (by omega)]
  · rw [if_pos (by omega)]
  · rw [if_neg (by omega)]

/-- C5 witness: the validator evaluated on `from = 3 ≤ to = 7`. -/
theorem check_date_order_spec_witness :
    check_date_order 3 7 = .ok true :=
  (check_date_order_spec 3 7).1 (by decide)

/-- C6.  For every export type outside the schema mapping, `_get_export`
raises a `ValueError` listing the valid kinds with no session opened and
no request issued; likewise a range-validation failure occurs before any
session is opened. -/
theorem get_export_unknown_kind :
    (∀ (parseCsv : String → Frame) (k : String) (f t : Nat)
       (resp : HttpResponse),
       col_mapping k = none →
       get_export parseCsv k f t resp =
         ⟨.error (.valueError (exportTypeMsg k)), false⟩) ∧
    (∀ (parseCsv : String → Frame) (k : String) (f t : Nat)
       (resp : HttpResponse) (cols : List String),
       col_mapping k = some cols → t < f →
       get_export parseCsv k f t resp =
         ⟨.error (.valueError (rangeMsg f t)), false⟩) := by
  constructor
  · intro parseCsv k f t resp h
    unfold get_export
    rw [h]
  · intro parseCsv k f t resp cols h hlt
    unfold get_export
    rw [h]
    unfold check_date_order
    rw [if_pos (by omega)]

/-- C6 witness: the unknown export type `"FOO"` evaluated concretely. -/
theorem get_export_unknown_kind_witness :
    get_export (fun _ => emptyFrame) "FOO" 0 1 ⟨false, 200, ""⟩ =
      ⟨.error (.valueError (exportTypeMsg "FOO")), false⟩ :=
  get_export_unknown_kind.1 (fun _ => emptyFrame) "FOO" 0 1
    ⟨false, 200, ""⟩ rfl

/-- C7.  `_get_hours` computes, for every row, exactly the specification's
fixed normalization `Days * 24 + Hours + Minutes / 60` — a formula that
takes no input other than the row, in particular nothing from
`HOURS_PER_DAY_DICT` — and on `Days = 1, Hours = 6, Minutes = 30` it
yields `30.5`. -/
theorem get_hours_row_spec :
    (∀ r : TimesheetRow,
      get_hours_row r = hoursBookedSpec r.days r.hours r.minutes) ∧
    get_hours_row ⟨1, 6, 30⟩ = 61 / 2 := by
  refine ⟨fun r => rfl, ?_⟩
  norm_num [get_hours_row]

/-- C8.  The `Q-MAR` fiscal-quarter labelling puts every April-June
timestamp in quarter 1 of the fiscal year labelled by the following
calendar year (the year in which the fiscal year ends), and in general the
fiscal-year label is `year + 1` from April onwards and `year` before
April; in particular 2015-05-15 is labelled `2016Q1`. -/
theorem fiscalQuarter_spec :
    (∀ y m : Nat, 4 ≤ m → m ≤ 6 → fiscalQuarter y m = (y + 1, 1)) ∧
    fiscalQuarter 2015 5 = (2016, 1) ∧
    (∀ y m : Nat, 1 ≤ m → m ≤ 12 →
      (fiscalQuarter y m).1 = if 4 ≤ m then y + 1 else y) := by
  refine ⟨fun y m h4 h6 => ?_, by decide, fun y m h1 h12 => ?_⟩
  · unfold fiscalQuarter
    rw [if_pos h4]
    have : (m - 4) / 3 = 0 := Nat.div_eq_of_lt (by omega)
    rw [this]
  · unfold fiscalQuarter
    by_cases h : 4 ≤ m
    · rw [if_pos h, if_pos h]
    · rw [if_neg h, if_neg h]

/-- C8 witness: the April-June rule applied at May 2015. -/
theorem fiscalQuarter_spec_witness :
    fiscalQuarter 2015 5 = (2015 + 1, 1) :=
  fiscalQuarter_spec.1 2015 5 (by decide) (by decide)

/-- C9.  The cell-wise substitution `replace('^_', '.', regex=True)`
rewrites every value beginning with an underscore so that the leading
underscore becomes a dot, leaves every other value unchanged, and is
applied to every cell of every row across all columns (column names are
untouched); in particular `"_Internal"` becomes `".Internal"`. -/
theorem underscoreToDot_spec :
    (∀ s : String, s.data.head? = some '_' →
      underscoreToDot s = String.mk ('.' :: s.data.tail)) ∧
    (∀ s : String, s.data.head? ≠ some '_' → underscoreToDot s = s) ∧
    underscoreToDot "_Internal" = ".Internal" ∧
    (∀ fr : Frame, mapFrame underscoreToDot fr =
      ⟨fr.cols, fr.rows.map (List.map underscoreToDot)⟩) := by
  refine ⟨fun s h => ?_, fun s h => ?_, by decide, fun fr => rfl⟩
  · unfold underscoreToDot
    match hs : s.data with
    | [] => rw [hs] at h; simp at h
    | c :: rest =>
      rw [hs] at h
      simp only [List.head?_cons, Option.some.injEq] at h
      show (if c = '_' then String.mk ('.' :: rest) else s) =
        String.mk ('.' :: (c :: rest).tail)
      rw [if_pos h, List.tail_cons]
  · unfold underscoreToDot
    match hs : s.data with
    | [] => rfl
    | c :: rest =>
      rw [hs] at h
      simp only [List.head?_cons, ne_eq, Option.some.injEq] at h
      show (if c = '_' then String.mk ('.' :: rest) else s) = s
      rw [if_neg h]

/-- C9 witness: the leading-underscore rule applied to `"_Internal"`. -/
theorem underscoreToDot_spec_witness :
    underscoreToDot "_Internal" = String.mk ('.' :: "_Internal".data.tail) :=
  underscoreToDot_spec.1 "_Internal" (by decide)

/-- C10.  If `from ≤ to` and the server answers every chunk request of a
timesheet retrieval with status 200 and an empty body, `get_timesheets`
does not return an empty frame: every chunk yields `pd.DataFrame()`, the
concatenation has no `Days` column, and the days-booked filter step raises
`KeyError('Days')` instead of completing — for any CSV-parsing semantics
and any post-processing of well-formed frames. -/
theorem get_timesheets_all_empty_key_error :
    ∀ (parseCsv : String → Frame) (post : Frame → Frame)
      (fetch : Nat → Nat → HttpResponse) (f t s : Nat),
      f ≤ t →
      (∀ a b : Nat, fetch a b = ⟨false, 200, ""⟩) →
      get_timesheets parseCsv post fetch f t s =
        .error (.keyError "Days") := by
  intro parseCsv post fetch f t s hft hfetch
  have hcheck : check_date_order f t = .ok true := by
    unfold check_date_order
    rw [if_neg (by omega)]
  have hmap : (chunks f t s).mapM
      (fun c => get_timesheet parseCsv (fetch c.1 c.2)) =
      .ok ((chunks f t s).map (fun _ => emptyFrame)) := by
    refine mapM_const_ok _ _ _ (fun c _ => ?_)
    rw [hfetch c.1 c.2]
    rfl
  have hne : (chunks f t s).map (fun _ => emptyFrame) ≠ [] := by
    rw [chunks_cons_of_le f t s hft]
    simp
  have hconcat : concatFrames ((chunks f t s).map (fun _ => emptyFrame)) =
      .ok emptyFrame := by
    refine concatFrames_of_empties _ hne (fun fr hfr => ?_)
    rcases List.mem_map.mp hfr with ⟨c, _, hc⟩
    exact hc.symm
  unfold get_timesheets
  rw [hcheck]
  dsimp only
  rw [hmap]
  dsimp only
  rw [hconcat]
  rfl

/-- C10 witness: a one-chunk retrieval whose only response is empty ends
in `KeyError('Days')`. -/
theorem get_timesheets_all_empty_key_error_witness :
    get_timesheets (fun _ => emptyFrame) id (fun _ _ => ⟨false, 200, ""⟩)
      0 0 365 = .error (.keyError "Days") :=
  get_timesheets_all_empty_key_error (fun _ => emptyFrame) id
    (fun _ _ => ⟨false, 200, ""⟩) 0 0 365 (by decide) (fun _ _ => rfl)

end Clearbooks
